import Mathlib

/-!
Verification of the client-side orchestration core of the flir2json
repository (FLIR Atlas C SDK samples): the discovery race in
`src/unnamed/part_000` (stream sample) and
`src/flir_sdk/sample/network_camera_sample.c`, the single-assignment
future declared in `src/unnamed/part_010` (acs/utility.h), and the
streaming-session loop of `src/unnamed/part_000`.

Machine integers: the C counters (`unsigned long callbacksReceived`,
`unsigned long renderFrame`, `unsigned int frameCount`) are modelled as
`Nat`; the relevant properties are order/monotonicity facts far below any
overflow boundary, and the samples never wrap these counters.
Identities (`ACS_Identity*`) are modelled as `Nat` tags with value
semantics, so `ACS_Identity_copy` is the identity function.
-/

set_option autoImplicit false

/-- Error description, from `ACS_Error` in
`src/flir_sdk/include/acs/common.h` lines 57-64: an `ACS_ErrorCode`
(`int`, `0` means success) plus an opaque category pointer. The vendor
function `ACS_getErrorCondition` maps the (code, category) pair to a
named `ACS_ErrorCondition` enum value; since the category and the mapping
live in the closed vendor binary, the model carries the condition the
vendor mapping would return as a field alongside the code. -/
structure ACS_Error where
  code : Int
  condition : Nat
deriving DecidableEq, Repr

/-- Enum value of `ACS_ERR_NUC_IN_PROGRESS`, the 38th enumerator of
`ACS_ErrorCondition` in `src/flir_sdk/include/acs/common.h` lines
206-333 (counting from `ACS_SUCCESS = 0`). -/
def ACS_ERR_NUC_IN_PROGRESS : Nat := 37

/-- Extraction of the error condition (`common.h` line 340); in the model
the precomputed vendor mapping is stored in the error itself. -/
def ACS_getErrorCondition (err : ACS_Error) : Nat := err.condition

/-- Modelled from the spec: state of the vendor-binary `ACS_Future`
(declared in `src/unnamed/part_010`, acs/utility.h; implementation is in
the closed SDK binary). Spec section 3: holds `{Unset, Value(T),
Error(E)}`; values here are camera identities (`Nat` tags). -/
inductive ACS_FutureState where
  | unset
  | value (identity : Nat)
  | error (err : ACS_Error)
deriving DecidableEq, Repr

/-- Modelled from the spec: `ACS_Future_setValue` (`part_010` line 43).
Spec sections 3 and 4.1: transitions only `Unset → Value`, exactly once;
any later assignment attempt is a silently ignored no-op. -/
def ACS_Future_setValue : ACS_FutureState → Nat → ACS_FutureState
  | .unset, v => .value v
  | s, _ => s

/-- Modelled from the spec: `ACS_Future_setError` (`part_010` line 49).
Both `setValue` and `setError` count as assigning; a later assignment
attempt is a silently ignored no-op. -/
def ACS_Future_setError : ACS_FutureState → ACS_Error → ACS_FutureState
  | .unset, e => .error e
  | s, _ => s

/-- Modelled from the spec: `ACS_Future_get` (`part_010` line 36) blocks
until a value or an error has been assigned. `none` models the caller
blocking forever on a future that is never assigned. -/
def ACS_Future_get : ACS_FutureState → Option (Sum Nat ACS_Error)
  | .unset => none
  | .value v => some (Sum.inl v)
  | .error e => some (Sum.inr e)

/-- Copy of a camera identity (`ACS_Identity_copy`); identities are `Nat`
tags with value semantics, so the deep copy is the identity map. -/
def ACS_Identity_copy (identity : Nat) : Nat := identity

/-- Shared discovery state, from `struct DiscoveryContext` in
`src/unnamed/part_000` lines 31-35 and `network_camera_sample.c` lines
11-15: the `futureAlreadySet` flag guarding repeated `setValue` calls and
the future carrying the discovered identity. -/
structure DiscoveryContext where
  futureAlreadySet : Bool
  futureIdentity : ACS_FutureState
deriving DecidableEq, Repr

/-- A discovered camera as seen by `onCameraFound`; only the identity
(`ACS_DiscoveredCamera_getIdentity`) feeds the logic, the display name
and IP address only feed `printf`. -/
structure ACS_DiscoveredCamera where
  identity : Nat
deriving DecidableEq, Repr

/-- Observable actions a discovery handler performs, in source order:
calls into the future plus the `printf`/`fprintf` log lines. -/
inductive DiscoveryAction where
  | logFound (identity : Nat)
  | logIgnoredFound (identity : Nat)
  | logDiscoveryError (cif : Nat)
  | logCameraLost (identity : Nat)
  | logDiscoveryFinished (cif : Nat)
  | callSetValue (identity : Nat)
  | callSetError (err : ACS_Error)
deriving DecidableEq, Repr

/-- Whether an action is a `ACS_Future_setValue` call. -/
def DiscoveryAction.isSetValueCall : DiscoveryAction → Bool
  | .callSetValue _ => true
  | _ => false

/-- `onCameraFound` from `src/unnamed/part_000` lines 361-383 (same
logic as `network_camera_sample.c` lines 161-175): if
`context->futureAlreadySet` the camera is only logged as ignored and the
handler returns; otherwise it logs the find, sets the flag and passes a
copy of the identity to `ACS_Future_setValue`. -/
def onCameraFound (discoveredCamera : ACS_DiscoveredCamera)
    (context : DiscoveryContext) : DiscoveryContext × List DiscoveryAction :=
  let identity := discoveredCamera.identity
  if context.futureAlreadySet then
    (context, [.logIgnoredFound identity])
  else
    ({ futureAlreadySet := true,
       futureIdentity := ACS_Future_setValue context.futureIdentity
         (ACS_Identity_copy identity) },
     [.logFound identity, .callSetValue (ACS_Identity_copy identity)])

/-- `onDiscoveryError` from `src/unnamed/part_000` lines 385-392 (same
logic as `network_camera_sample.c` lines 190-197): logs the error, sets
`futureAlreadySet` unconditionally and calls `ACS_Future_setError`
unconditionally. -/
def onDiscoveryError (cif : Nat) (err : ACS_Error)
    (context : DiscoveryContext) : DiscoveryContext × List DiscoveryAction :=
  ({ futureAlreadySet := true,
     futureIdentity := ACS_Future_setError context.futureIdentity err },
   [.logDiscoveryError cif, .callSetError err])

/-- `onCameraLost` from `network_camera_sample.c` lines 177-181: prints
only, performs no assignment. (`part_000` passes `NULL` for this
callback, an equivalent no-op on the context.) -/
def onCameraLost (identity : Nat)
    (context : DiscoveryContext) : DiscoveryContext × List DiscoveryAction :=
  (context, [.logCameraLost identity])

/-- `onDiscoveryFinished` from `network_camera_sample.c` lines 183-188:
prints only, performs no assignment. -/
def onDiscoveryFinished (cif : Nat)
    (context : DiscoveryContext) : DiscoveryContext × List DiscoveryAction :=
  (context, [.logDiscoveryFinished cif])

/-- A discovery event as delivered by `ACS_Discovery_scan` to the four
registered callbacks (spec section 3, `DiscoveryEvent`). -/
inductive ACS_DiscoveryEvent where
  | found (camera : ACS_DiscoveredCamera)
  | error (cif : Nat) (err : ACS_Error)
  | lost (identity : Nat)
  | finished (cif : Nat)
deriving DecidableEq, Repr

/-- Whether an event is a Found or an Error event (the two kinds that can
resolve the future). -/
def ACS_DiscoveryEvent.isFoundOrError : ACS_DiscoveryEvent → Bool
  | .found _ => true
  | .error _ _ => true
  | .lost _ => false
  | .finished _ => false

/-- Dispatch of one delivered event to its handler. -/
def discoveryStep (context : DiscoveryContext)
    (event : ACS_DiscoveryEvent) : DiscoveryContext × List DiscoveryAction :=
  match event with
  | .found cam => onCameraFound cam context
  | .error cif err => onDiscoveryError cif err context
  | .lost identity => onCameraLost identity context
  | .finished cif => onDiscoveryFinished cif context

/-- Delivery of a sequence of discovery events (one serialized
interleaving of the concurrent callbacks), accumulating the actions
performed. -/
def runDiscovery (context : DiscoveryContext) :
    List ACS_DiscoveryEvent → DiscoveryContext × List DiscoveryAction
  | [] => (context, [])
  | event :: rest =>
    let r := discoveryStep context event
    let r2 := runDiscovery r.1 rest
    (r2.1, r.2 ++ r2.2)

/-- Initial context built by `discoverCamera` (`part_000` lines 343-346,
`network_camera_sample.c` lines 145-148): flag `false`, fresh future. -/
def initialDiscoveryContext : DiscoveryContext :=
  { futureAlreadySet := false, futureIdentity := .unset }

/-- `discoverCamera` (`part_000` lines 337-359, `network_camera_sample.c`
lines 139-159) viewed against a given delivered event sequence: scan,
then block on `ACS_Future_get`; `none` means the call never returns. -/
def discoverCamera (events : List ACS_DiscoveryEvent) :
    Option (Sum Nat ACS_Error) :=
  ACS_Future_get (runDiscovery initialDiscoveryContext events).1.futureIdentity

/-- A context that has decided its outcome: flag set and future
assigned. -/
def DiscoveryContext.decided (context : DiscoveryContext) : Prop :=
  context.futureAlreadySet = true ∧ context.futureIdentity ≠ .unset

theorem ACS_Future_setValue_of_ne_unset (s : ACS_FutureState) (v : Nat)
    (h : s ≠ .unset) : ACS_Future_setValue s v = s := by
  cases s with
  | unset => exact absurd rfl h
  | value _ => rfl
  | error _ => rfl

theorem ACS_Future_setError_of_ne_unset (s : ACS_FutureState) (e : ACS_Error)
    (h : s ≠ .unset) : ACS_Future_setError s e = s := by
  cases s with
  | unset => exact absurd rfl h
  | value _ => rfl
  | error _ => rfl

theorem ACS_Future_setError_ne_unset (s : ACS_FutureState) (e : ACS_Error) :
    ACS_Future_setError s e ≠ .unset := by
  cases s <;> simp [ACS_Future_setError]

theorem ACS_Future_setValue_ne_unset (s : ACS_FutureState) (v : Nat) :
    ACS_Future_setValue s v ≠ .unset := by
  cases s <;> simp [ACS_Future_setValue]

theorem discoveryStep_of_decided (context : DiscoveryContext)
    (event : ACS_DiscoveryEvent) (h : context.decided) :
    (discoveryStep context event).1 = context ∧
      ((discoveryStep context event).2.all fun a => !a.isSetValueCall) = true := by
  obtain ⟨flag, fut⟩ := context
  obtain ⟨hflag, hset⟩ := h
  simp only at hflag hset
  subst hflag
  cases event with
  | found cam =>
    simp [discoveryStep, onCameraFound, DiscoveryAction.isSetValueCall]
  | error cif err =>
    constructor
    · simp only [discoveryStep, onDiscoveryError]
      rw [ACS_Future_setError_of_ne_unset _ _ hset]
    · simp [discoveryStep, onDiscoveryError, DiscoveryAction.isSetValueCall]
  | lost identity =>
    simp [discoveryStep, onCameraLost, DiscoveryAction.isSetValueCall]
  | finished cif =>
    simp [discoveryStep, onDiscoveryFinished, DiscoveryAction.isSetValueCall]

theorem runDiscovery_of_decided (events : List ACS_DiscoveryEvent)
    (context : DiscoveryContext) (h : context.decided) :
    (runDiscovery context events).1 = context ∧
      ((runDiscovery context events).2.all fun a => !a.isSetValueCall) = true := by
  induction events with
  | nil => exact ⟨rfl, rfl⟩
  | cons event rest ih =>
    have hstep := discoveryStep_of_decided context event h
    have hrest := ih
    simp only [runDiscovery, List.all_append]
    rw [hstep.1]
    exact ⟨hrest.1, by simp [hstep.2, hrest.2]⟩

theorem discoveryStep_decided_of_foundOrError (context : DiscoveryContext)
    (event : ACS_DiscoveryEvent)
    (hinv : context.futureAlreadySet = true → context.futureIdentity ≠ .unset)
    (hev : event.isFoundOrError = true) :
    ((discoveryStep context event).1).decided := by
  cases event with
  | found cam =>
    by_cases hflag : context.futureAlreadySet = true
    · have : (discoveryStep context (.found cam)).1 = context := by
        simp [discoveryStep, onCameraFound, hflag]
      rw [this]
      exact ⟨hflag, hinv hflag⟩
    · have hflag' : context.futureAlreadySet = false := by
        cases hcase : context.futureAlreadySet with
        | true => exact absurd hcase hflag
        | false => rfl
      constructor
      · simp [discoveryStep, onCameraFound, hflag']
      · simp only [discoveryStep, onCameraFound, hflag', Bool.false_eq_true,
          if_false]
        exact ACS_Future_setValue_ne_unset _ _
  | error cif err =>
    exact ⟨rfl, ACS_Future_setError_ne_unset _ _⟩
  | lost identity => simp [ACS_DiscoveryEvent.isFoundOrError] at hev
  | finished cif => simp [ACS_DiscoveryEvent.isFoundOrError] at hev

theorem runDiscovery_append_state (context : DiscoveryContext)
    (xs ys : List ACS_DiscoveryEvent) :
    (runDiscovery context (xs ++ ys)).1 =
      (runDiscovery (runDiscovery context xs).1 ys).1 := by
  induction xs generalizing context with
  | nil => rfl
  | cons x rest ih =>
    simp only [List.cons_append, runDiscovery]
    exact ih (discoveryStep context x).1

theorem runDiscovery_nonresolving (es : List ACS_DiscoveryEvent)
    (context : DiscoveryContext)
    (h : (es.all fun e => !e.isFoundOrError) = true) :
    (runDiscovery context es).1 = context := by
  induction es generalizing context with
  | nil => rfl
  | cons e rest ih =>
    simp only [List.all_cons, Bool.and_eq_true] at h
    have hstep : (discoveryStep context e).1 = context := by
      cases e with
      | found cam => simp [ACS_DiscoveryEvent.isFoundOrError] at h
      | error cif err => simp [ACS_DiscoveryEvent.isFoundOrError] at h
      | lost identity => rfl
      | finished cif => rfl
    simp only [runDiscovery]
    rw [hstep]
    exact ih context h.2

theorem decided_after_error_event (pre : List ACS_DiscoveryEvent)
    (cif : Nat) (err : ACS_Error) :
    ((runDiscovery initialDiscoveryContext
        (pre ++ [ACS_DiscoveryEvent.error cif err])).1).decided := by
  rw [runDiscovery_append_state]
  exact ⟨rfl, ACS_Future_setError_ne_unset _ _⟩

/-- An assignment attempt on the single-assignment future: spec section
4.1, both `setValue` and `setError` count as assigning. -/
inductive FutureAssignment where
  | assignValue (v : Nat)
  | assignError (e : ACS_Error)
deriving DecidableEq, Repr

/-- Modelled from the spec: effect of one assignment attempt on the
vendor-binary future state (`part_010` lines 39-49). -/
def applyFutureAssignment (s : ACS_FutureState) : FutureAssignment → ACS_FutureState
  | .assignValue v => ACS_Future_setValue s v
  | .assignError e => ACS_Future_setError s e

/-- Effect of a serialized sequence of assignment attempts. -/
def runFutureAssignments : ACS_FutureState → List FutureAssignment → ACS_FutureState
  | s, [] => s
  | s, a :: rest => runFutureAssignments (applyFutureAssignment s a) rest

theorem applyFutureAssignment_of_ne_unset (s : ACS_FutureState)
    (a : FutureAssignment) (h : s ≠ .unset) : applyFutureAssignment s a = s := by
  cases a with
  | assignValue v => exact ACS_Future_setValue_of_ne_unset s v h
  | assignError e => exact ACS_Future_setError_of_ne_unset s e h

theorem applyFutureAssignment_unset_ne_unset (a : FutureAssignment) :
    applyFutureAssignment ACS_FutureState.unset a ≠ ACS_FutureState.unset := by
  cases a with
  | assignValue v => simp [applyFutureAssignment, ACS_Future_setValue]
  | assignError e => simp [applyFutureAssignment, ACS_Future_setError]

theorem runFutureAssignments_of_ne_unset (l : List FutureAssignment)
    (s : ACS_FutureState) (h : s ≠ .unset) : runFutureAssignments s l = s := by
  induction l generalizing s with
  | nil => rfl
  | cons a rest ih =>
    simp only [runFutureAssignments]
    rw [applyFutureAssignment_of_ne_unset s a h]
    exact ih s h

/-- C2: the single-assignment future is assigned at most once: from
`Unset` an assignment yields `Value v` (for `setValue v`) or `Error e`
(for `setError e`); for every sequence of assignment attempts the stored
outcome is the one produced by the first attempt, and every attempt on an
already-assigned future is a silently ignored no-op that never
overwrites the stored outcome. -/
theorem future_single_assignment (a : FutureAssignment)
    (rest : List FutureAssignment) :
    runFutureAssignments ACS_FutureState.unset (a :: rest)
      = applyFutureAssignment ACS_FutureState.unset a ∧
    (∀ v : Nat, applyFutureAssignment ACS_FutureState.unset (.assignValue v)
      = ACS_FutureState.value v) ∧
    (∀ e : ACS_Error, applyFutureAssignment ACS_FutureState.unset (.assignError e)
      = ACS_FutureState.error e) ∧
    (∀ (s : ACS_FutureState) (b : FutureAssignment), s ≠ ACS_FutureState.unset →
      applyFutureAssignment s b = s) := by
  refine ⟨?_, fun v => rfl, fun e => rfl,
    fun s b h => applyFutureAssignment_of_ne_unset s b h⟩
  show runFutureAssignments (applyFutureAssignment ACS_FutureState.unset a) rest
    = applyFutureAssignment ACS_FutureState.unset a
  exact runFutureAssignments_of_ne_unset rest _
    (applyFutureAssignment_unset_ne_unset a)

/-- Witness for C2 at a concrete input: a `setValue 1` followed by a late
`setError` leaves the future at `Value 1`, and an attempt on an assigned
future is a no-op. -/
theorem future_single_assignment_witness :
    (runFutureAssignments ACS_FutureState.unset
        [FutureAssignment.assignValue 1, FutureAssignment.assignError ⟨3, 1⟩]
      = applyFutureAssignment ACS_FutureState.unset (.assignValue 1)) ∧
    (ACS_FutureState.value 1 ≠ ACS_FutureState.unset ∧
      applyFutureAssignment (ACS_FutureState.value 1) (.assignError ⟨3, 1⟩)
        = ACS_FutureState.value 1) :=
  ⟨(future_single_assignment (.assignValue 1) [.assignError ⟨3, 1⟩]).1,
    by decide,
    (future_single_assignment (.assignValue 1) []).2.2.2
      (ACS_FutureState.value 1) (.assignError ⟨3, 1⟩) (by decide)⟩

/-- C1: for every nonempty sequence of Found/Error discovery events
delivered to the coordinator, the future is resolved (not `Unset`),
delivering any further events never changes the resolved outcome, and
`onCameraFound` on a context whose `futureAlreadySet` flag is `true`
returns with the context unchanged, producing only an "(ignored)" log
line and no `setValue` call. -/
theorem discovery_resolves_exactly_once (es more : List ACS_DiscoveryEvent)
    (h1 : es ≠ [])
    (h2 : (es.all ACS_DiscoveryEvent.isFoundOrError) = true) :
    (runDiscovery initialDiscoveryContext es).1.futureIdentity
      ≠ ACS_FutureState.unset ∧
    (runDiscovery initialDiscoveryContext (es ++ more)).1.futureIdentity
      = (runDiscovery initialDiscoveryContext es).1.futureIdentity ∧
    (∀ (cam : ACS_DiscoveredCamera) (ctx : DiscoveryContext),
      ctx.futureAlreadySet = true →
      onCameraFound cam ctx = (ctx, [DiscoveryAction.logIgnoredFound cam.identity])) := by
  cases es with
  | nil => exact absurd rfl h1
  | cons e rest =>
    simp only [List.all_cons, Bool.and_eq_true] at h2
    have hd : ((discoveryStep initialDiscoveryContext e).1).decided := by
      refine discoveryStep_decided_of_foundOrError _ _ ?_ h2.1
      intro hcontra
      simp [initialDiscoveryContext] at hcontra
    have hrun : (runDiscovery initialDiscoveryContext (e :: rest)).1
        = (discoveryStep initialDiscoveryContext e).1 := by
      simp only [runDiscovery]
      exact (runDiscovery_of_decided rest _ hd).1
    have hrunMore : (runDiscovery initialDiscoveryContext ((e :: rest) ++ more)).1
        = (discoveryStep initialDiscoveryContext e).1 := by
      simp only [List.cons_append, runDiscovery]
      exact (runDiscovery_of_decided (rest ++ more) _ hd).1
    refine ⟨?_, ?_, ?_⟩
    · rw [hrun]
      exact hd.2
    · rw [hrun, hrunMore]
    · intro cam ctx hctx
      simp [onCameraFound, hctx]

/-- Witness for C1 at a concrete input: one Found event resolves the
future, and a later Found event does not change the outcome. -/
theorem discovery_resolves_exactly_once_witness :
    ([ACS_DiscoveryEvent.found ⟨3⟩] ≠ [] ∧
      (([ACS_DiscoveryEvent.found ⟨3⟩].all ACS_DiscoveryEvent.isFoundOrError)
        = true)) ∧
    ((runDiscovery initialDiscoveryContext [ACS_DiscoveryEvent.found ⟨3⟩]).1.futureIdentity
      ≠ ACS_FutureState.unset ∧
    (runDiscovery initialDiscoveryContext
        ([ACS_DiscoveryEvent.found ⟨3⟩] ++ [ACS_DiscoveryEvent.found ⟨4⟩])).1.futureIdentity
      = (runDiscovery initialDiscoveryContext
          [ACS_DiscoveryEvent.found ⟨3⟩]).1.futureIdentity ∧
    (∀ (cam : ACS_DiscoveredCamera) (ctx : DiscoveryContext),
      ctx.futureAlreadySet = true →
      onCameraFound cam ctx = (ctx, [DiscoveryAction.logIgnoredFound cam.identity]))) :=
  ⟨⟨by decide, by decide⟩,
    discovery_resolves_exactly_once [ACS_DiscoveryEvent.found ⟨3⟩]
      [ACS_DiscoveryEvent.found ⟨4⟩] (by decide) (by decide)⟩

/-- C3 counterexample: after a Found event has been accepted (the future
holds `Value 7`), delivering an Error event still makes the error handler
call `ACS_Future_setError` — `onDiscoveryError` performs the call
unconditionally, refuting "calls setError only if no value has been set
yet". -/
theorem discovery_error_calls_setError_after_value :
    (runDiscovery initialDiscoveryContext
        [ACS_DiscoveryEvent.found ⟨7⟩]).1.futureIdentity
      = ACS_FutureState.value 7 ∧
    (onDiscoveryError 1 ⟨5, 1⟩
        (runDiscovery initialDiscoveryContext [ACS_DiscoveryEvent.found ⟨7⟩]).1).2
      = [DiscoveryAction.logDiscoveryError 1, DiscoveryAction.callSetError ⟨5, 1⟩] :=
  ⟨rfl, rfl⟩

/-- C3 amended: when an Error event is delivered the error handler calls
`setError` unconditionally (also after a Found has been accepted); the
future's at-most-once semantics make the late call a no-op, so an
already-set outcome is never overwritten, while on a still-unset future
the call stores the error. -/
theorem discovery_error_handler_unconditional (cif : Nat) (err : ACS_Error)
    (ctx : DiscoveryContext) :
    (onDiscoveryError cif err ctx).2
      = [DiscoveryAction.logDiscoveryError cif, DiscoveryAction.callSetError err] ∧
    (ctx.futureIdentity ≠ ACS_FutureState.unset →
      (onDiscoveryError cif err ctx).1.futureIdentity = ctx.futureIdentity) ∧
    (ctx.futureIdentity = ACS_FutureState.unset →
      (onDiscoveryError cif err ctx).1.futureIdentity
        = ACS_FutureState.error err) := by
  refine ⟨rfl, ?_, ?_⟩
  · intro h
    exact ACS_Future_setError_of_ne_unset _ _ h
  · intro h
    show ACS_Future_setError ctx.futureIdentity err = ACS_FutureState.error err
    rw [h]
    rfl

/-- Witness for the amended C3 at a concrete input: on a context holding
an accepted identity, the error handler still calls `setError` and the
identity is preserved. -/
theorem discovery_error_handler_unconditional_witness :
    ((⟨true, ACS_FutureState.value 3⟩ : DiscoveryContext).futureIdentity
      ≠ ACS_FutureState.unset) ∧
    (onDiscoveryError 2 ⟨9, 1⟩ ⟨true, ACS_FutureState.value 3⟩).2
      = [DiscoveryAction.logDiscoveryError 2, DiscoveryAction.callSetError ⟨9, 1⟩] ∧
    (onDiscoveryError 2 ⟨9, 1⟩
      (⟨true, ACS_FutureState.value 3⟩ : DiscoveryContext)).1.futureIdentity
      = ACS_FutureState.value 3 :=
  ⟨by decide,
    (discovery_error_handler_unconditional 2 ⟨9, 1⟩ ⟨true, .value 3⟩).1,
    (discovery_error_handler_unconditional 2 ⟨9, 1⟩ ⟨true, .value 3⟩).2.1
      (by decide)⟩

/-- C4: Lost and Finished events never resolve the future — on every
event sequence made only of Lost/Finished events the discovery context
is left exactly as created (flag `false`, future `Unset`), so
`discoverCamera` stays blocked on `ACS_Future_get` forever (`none`) and
never returns. -/
theorem lost_finished_never_resolve (es : List ACS_DiscoveryEvent)
    (h : (es.all fun e => !e.isFoundOrError) = true) :
    (runDiscovery initialDiscoveryContext es).1 = initialDiscoveryContext ∧
    discoverCamera es = none := by
  refine ⟨runDiscovery_nonresolving es _ h, ?_⟩
  show ACS_Future_get
    (runDiscovery initialDiscoveryContext es).1.futureIdentity = none
  rw [runDiscovery_nonresolving es _ h]
  rfl

/-- Witness for C4 at a concrete input: a Lost then a Finished event
leave the context untouched and `discoverCamera` blocked. -/
theorem lost_finished_never_resolve_witness :
    (([ACS_DiscoveryEvent.lost 5, ACS_DiscoveryEvent.finished 0].all
        fun e => !e.isFoundOrError) = true) ∧
    ((runDiscovery initialDiscoveryContext
        [ACS_DiscoveryEvent.lost 5, ACS_DiscoveryEvent.finished 0]).1
      = initialDiscoveryContext ∧
    discoverCamera [ACS_DiscoveryEvent.lost 5, ACS_DiscoveryEvent.finished 0]
      = none) :=
  ⟨by decide,
    lost_finished_never_resolve
      [ACS_DiscoveryEvent.lost 5, ACS_DiscoveryEvent.finished 0] (by decide)⟩

/-- C10: once an Error event has been delivered, no later identity is
ever accepted: the context after the error is a fixed point of all
further events, no `setValue` call is ever emitted after the error, the
error handler sets `futureAlreadySet` unconditionally, no handler ever
resets the flag, and every Found event arriving after the error is merely
logged as ignored. -/
theorem found_after_error_ignored (pre post : List ACS_DiscoveryEvent)
    (cif : Nat) (err : ACS_Error) :
    (runDiscovery initialDiscoveryContext
        (pre ++ ACS_DiscoveryEvent.error cif err :: post)).1
      = (runDiscovery initialDiscoveryContext
          (pre ++ [ACS_DiscoveryEvent.error cif err])).1 ∧
    ((runDiscovery
        (runDiscovery initialDiscoveryContext
          (pre ++ [ACS_DiscoveryEvent.error cif err])).1 post).2.all
      fun a => !a.isSetValueCall) = true ∧
    (∀ (ctx : DiscoveryContext) (c : Nat) (e : ACS_Error),
      (onDiscoveryError c e ctx).1.futureAlreadySet = true) ∧
    (∀ (ctx : DiscoveryContext) (ev : ACS_DiscoveryEvent),
      ctx.futureAlreadySet = true →
      (discoveryStep ctx ev).1.futureAlreadySet = true) ∧
    (∀ cam : ACS_DiscoveredCamera,
      onCameraFound cam
          (runDiscovery initialDiscoveryContext
            (pre ++ [ACS_DiscoveryEvent.error cif err])).1
        = ((runDiscovery initialDiscoveryContext
              (pre ++ [ACS_DiscoveryEvent.error cif err])).1,
           [DiscoveryAction.logIgnoredFound cam.identity])) := by
  have hd := decided_after_error_event pre cif err
  have happ : pre ++ ACS_DiscoveryEvent.error cif err :: post
      = (pre ++ [ACS_DiscoveryEvent.error cif err]) ++ post := by
    simp
  refine ⟨?_, (runDiscovery_of_decided post _ hd).2, ?_, ?_, ?_⟩
  · rw [happ, runDiscovery_append_state]
    exact (runDiscovery_of_decided post _ hd).1
  · intro ctx c e
    rfl
  · intro ctx ev hctx
    cases ev with
    | found cam =>
      simp [discoveryStep, onCameraFound, hctx]
    | error c e => rfl
    | lost identity => exact hctx
    | finished c => exact hctx
  · intro cam
    simp [onCameraFound, hd.1]

/-- Witness for C10 at a concrete input: after an Error event, a later
Found event leaves everything unchanged and emits no `setValue` call. -/
theorem found_after_error_ignored_witness :
    (runDiscovery initialDiscoveryContext
        ([] ++ ACS_DiscoveryEvent.error 0 ⟨5, 1⟩
          :: [ACS_DiscoveryEvent.found ⟨9⟩])).1
      = (runDiscovery initialDiscoveryContext
          ([] ++ [ACS_DiscoveryEvent.error 0 ⟨5, 1⟩])).1 ∧
    ((⟨true, ACS_FutureState.error ⟨5, 1⟩⟩ : DiscoveryContext).futureAlreadySet
      = true ∧
    (discoveryStep ⟨true, ACS_FutureState.error ⟨5, 1⟩⟩
        (ACS_DiscoveryEvent.found ⟨9⟩)).1.futureAlreadySet = true) :=
  ⟨(found_after_error_ignored [] [ACS_DiscoveryEvent.found ⟨9⟩] 0 ⟨5, 1⟩).1,
    by decide,
    (found_after_error_ignored [] [ACS_DiscoveryEvent.found ⟨9⟩] 0 ⟨5, 1⟩).2.2.2.1
      ⟨true, ACS_FutureState.error ⟨5, 1⟩⟩ (ACS_DiscoveryEvent.found ⟨9⟩)
      (by decide)⟩

/-- Counter state of the streaming render loop in `src/unnamed/part_000`
`main`: `callbacksReceived` (line 98, incremented by the device callback)
and `renderFrame` (line 270, advanced by the processing loop). -/
structure StreamLoopState where
  callbacksReceived : Nat
  renderFrame : Nat
deriving DecidableEq, Repr

/-- `onImageReceived` from `src/unnamed/part_000` lines 412-415: the
frame-notification callback only increments the counter. -/
def onImageReceived (counter : Nat) : Nat := counter + 1

/-- Effect of one processing-loop iteration on the counters
(`src/unnamed/part_000` lines 273-282): when `callbacksReceived >
renderFrame` the iteration jumps `renderFrame` to `callbacksReceived`
and performs one processing cycle; otherwise it is a no-op (`continue`).
The rest of the loop body (renderer update, recording, display) does not
touch either counter. -/
def streamLoopIteration (s : StreamLoopState) : StreamLoopState :=
  if s.renderFrame < s.callbacksReceived then
    { s with renderFrame := s.callbacksReceived }
  else
    s

/-- One atomic step of the two concurrent execution contexts: either the
device-I/O callback fires (`onImageReceived`) or the processing loop runs
one iteration. -/
inductive StreamStep where
  | imageReceived
  | loopIteration
deriving DecidableEq, Repr

/-- A serialized interleaving of callback firings and loop iterations. -/
def runStreamSteps : StreamLoopState → List StreamStep → StreamLoopState
  | s, [] => s
  | s, .imageReceived :: rest =>
    runStreamSteps { s with callbacksReceived := onImageReceived s.callbacksReceived } rest
  | s, .loopIteration :: rest => runStreamSteps (streamLoopIteration s) rest

theorem runStreamSteps_le (steps : List StreamStep) (s : StreamLoopState)
    (h : s.renderFrame ≤ s.callbacksReceived) :
    (runStreamSteps s steps).renderFrame
      ≤ (runStreamSteps s steps).callbacksReceived := by
  induction steps generalizing s with
  | nil => exact h
  | cons step rest ih =>
    cases step with
    | imageReceived =>
      exact ih _ (Nat.le_trans h (Nat.le_succ _))
    | loopIteration =>
      refine ih (streamLoopIteration s) ?_
      unfold streamLoopIteration
      by_cases hlt : s.renderFrame < s.callbacksReceived
      · simp [hlt]
      · simp [hlt, h]

theorem runStreamSteps_replicate_imageReceived (k : Nat) (s : StreamLoopState) :
    runStreamSteps s (List.replicate k .imageReceived)
      = ⟨s.callbacksReceived + k, s.renderFrame⟩ := by
  induction k generalizing s with
  | zero => rfl
  | succ n ih =>
    simp only [List.replicate_succ, runStreamSteps]
    rw [ih]
    show (⟨onImageReceived s.callbacksReceived + n, s.renderFrame⟩ : StreamLoopState) = _
    simp only [onImageReceived]
    congr 1
    omega

/-- C5: `framesRendered` never exceeds `framesReceived` — over every
interleaving of callback firings and loop iterations starting from the
initial counters `(0, 0)`, `renderFrame ≤ callbacksReceived` holds;
moreover a loop iteration changes `renderFrame` only when
`callbacksReceived` strictly exceeds it, and then only up to the current
`callbacksReceived`. -/
theorem framesRendered_le_framesReceived (steps : List StreamStep) :
    (runStreamSteps ⟨0, 0⟩ steps).renderFrame
      ≤ (runStreamSteps ⟨0, 0⟩ steps).callbacksReceived ∧
    (∀ s : StreamLoopState, s.callbacksReceived ≤ s.renderFrame →
      streamLoopIteration s = s) ∧
    (∀ s : StreamLoopState, s.renderFrame < s.callbacksReceived →
      (streamLoopIteration s).renderFrame = s.callbacksReceived) := by
  refine ⟨runStreamSteps_le steps ⟨0, 0⟩ (Nat.le_refl 0), ?_, ?_⟩
  · intro s hle
    unfold streamLoopIteration
    have : ¬ s.renderFrame < s.callbacksReceived := Nat.not_lt.mpr hle
    simp [this]
  · intro s hlt
    unfold streamLoopIteration
    simp [hlt]

/-- Witness for C5 at a concrete input: two callbacks, one iteration,
one more callback. -/
theorem framesRendered_le_framesReceived_witness :
    (runStreamSteps ⟨0, 0⟩
        [StreamStep.imageReceived, StreamStep.imageReceived,
          StreamStep.loopIteration, StreamStep.imageReceived]).renderFrame
      ≤ (runStreamSteps ⟨0, 0⟩
        [StreamStep.imageReceived, StreamStep.imageReceived,
          StreamStep.loopIteration, StreamStep.imageReceived]).callbacksReceived ∧
    ((⟨1, 1⟩ : StreamLoopState).callbacksReceived
        ≤ (⟨1, 1⟩ : StreamLoopState).renderFrame ∧
      streamLoopIteration ⟨1, 1⟩ = ⟨1, 1⟩) :=
  ⟨(framesRendered_le_framesReceived
      [.imageReceived, .imageReceived, .loopIteration, .imageReceived]).1,
    by decide,
    (framesRendered_le_framesReceived []).2.1 ⟨1, 1⟩ (by decide)⟩

/-- C6: frame notifications are coalesced, not queued — when two or more
notifications (`n + 2`) fire between two loop iterations, the next single
iteration jumps `renderFrame` directly to the latest `callbacksReceived`,
a second immediate iteration is a no-op (exactly one processing cycle),
and the backlog after the cycle is zero, so it never grows across a
cycle. -/
theorem frame_notifications_coalesced (s : StreamLoopState) (n : Nat)
    (h : s.renderFrame ≤ s.callbacksReceived) :
    (streamLoopIteration
        (runStreamSteps s (List.replicate (n + 2) .imageReceived))).renderFrame
      = (runStreamSteps s (List.replicate (n + 2) .imageReceived)).callbacksReceived ∧
    streamLoopIteration (streamLoopIteration
        (runStreamSteps s (List.replicate (n + 2) .imageReceived)))
      = streamLoopIteration
          (runStreamSteps s (List.replicate (n + 2) .imageReceived)) ∧
    (runStreamSteps s (List.replicate (n + 2) .imageReceived)).callbacksReceived
      - (streamLoopIteration
          (runStreamSteps s (List.replicate (n + 2) .imageReceived))).renderFrame
      = 0 := by
  rw [runStreamSteps_replicate_imageReceived]
  have hlt : (⟨s.callbacksReceived + (n + 2), s.renderFrame⟩ :
      StreamLoopState).renderFrame
      < (⟨s.callbacksReceived + (n + 2), s.renderFrame⟩ :
      StreamLoopState).callbacksReceived := by
    simp only
    omega
  have hjump : streamLoopIteration
      ⟨s.callbacksReceived + (n + 2), s.renderFrame⟩
      = ⟨s.callbacksReceived + (n + 2), s.callbacksReceived + (n + 2)⟩ := by
    unfold streamLoopIteration
    simp [hlt]
  refine ⟨?_, ?_, ?_⟩
  · rw [hjump]
  · rw [hjump]
    unfold streamLoopIteration
    simp
  · rw [hjump]
    simp

/-- Witness for C6 at a concrete input: three notifications from the
initial state, then one iteration. -/
theorem frame_notifications_coalesced_witness :
    ((⟨0, 0⟩ : StreamLoopState).renderFrame
      ≤ (⟨0, 0⟩ : StreamLoopState).callbacksReceived) ∧
    ((streamLoopIteration
        (runStreamSteps ⟨0, 0⟩ (List.replicate 3 .imageReceived))).renderFrame
      = (runStreamSteps ⟨0, 0⟩ (List.replicate 3 .imageReceived)).callbacksReceived ∧
    streamLoopIteration (streamLoopIteration
        (runStreamSteps ⟨0, 0⟩ (List.replicate 3 .imageReceived)))
      = streamLoopIteration
          (runStreamSteps ⟨0, 0⟩ (List.replicate 3 .imageReceived)) ∧
    (runStreamSteps ⟨0, 0⟩ (List.replicate 3 .imageReceived)).callbacksReceived
      - (streamLoopIteration
          (runStreamSteps ⟨0, 0⟩ (List.replicate 3 .imageReceived))).renderFrame
      = 0) :=
  ⟨by decide, frame_notifications_coalesced ⟨0, 0⟩ 1 (by decide)⟩

/-- Outcome of running an error handler: whether `exit(EXIT_FAILURE)` is
reached and whether the error was printed to `stderr`. -/
structure ErrorHandlerResult where
  exitsProcess : Bool
  loggedAsError : Bool
deriving DecidableEq, Repr

/-- `checkAcsError` from `src/unnamed/part_000` lines 517-531: non-zero
`code` means error — it is printed to `stderr`, and when `exitOnError`
holds the process exits with `EXIT_FAILURE`; a zero code does nothing. -/
def checkAcsError (err : ACS_Error) (exitOnError : Bool) : ErrorHandlerResult :=
  if err.code ≠ 0 then
    { exitsProcess := exitOnError, loggedAsError := true }
  else
    { exitsProcess := false, loggedAsError := false }

/-- `onError` from `src/unnamed/part_000` lines 402-410, the streaming
error callback: when the error condition is not
`ACS_ERR_NUC_IN_PROGRESS` it runs `checkAcsError(error, true)`;
a calibration-in-progress error skips that call entirely. -/
def onError (err : ACS_Error) : ErrorHandlerResult :=
  if ACS_getErrorCondition err ≠ ACS_ERR_NUC_IN_PROGRESS then
    checkAcsError err true
  else
    { exitsProcess := false, loggedAsError := false }

/-- C7: a calibration-in-progress error (`ACS_ERR_NUC_IN_PROGRESS`) is
absorbed by the streaming error callback — no exit, no error log, loop
continues — while every error with a non-zero code and any other
condition is fatal: it is logged and terminates the process. -/
theorem nuc_in_progress_transient (err : ACS_Error) :
    (ACS_getErrorCondition err = ACS_ERR_NUC_IN_PROGRESS →
      onError err = { exitsProcess := false, loggedAsError := false }) ∧
    (ACS_getErrorCondition err ≠ ACS_ERR_NUC_IN_PROGRESS → err.code ≠ 0 →
      onError err = { exitsProcess := true, loggedAsError := true }) := by
  constructor
  · intro h
    simp [onError, h]
  · intro h hcode
    simp [onError, h, checkAcsError, hcode]

/-- Witness for C7 at concrete inputs: a calibration-in-progress error is
absorbed; a connection-timeout error (condition 1) with code 1 exits. -/
theorem nuc_in_progress_transient_witness :
    (ACS_getErrorCondition ⟨2, ACS_ERR_NUC_IN_PROGRESS⟩
        = ACS_ERR_NUC_IN_PROGRESS ∧
      onError ⟨2, ACS_ERR_NUC_IN_PROGRESS⟩
        = { exitsProcess := false, loggedAsError := false }) ∧
    (ACS_getErrorCondition ⟨1, 1⟩ ≠ ACS_ERR_NUC_IN_PROGRESS ∧
      (⟨1, 1⟩ : ACS_Error).code ≠ 0 ∧
      onError ⟨1, 1⟩ = { exitsProcess := true, loggedAsError := true }) :=
  ⟨⟨by decide,
      (nuc_in_progress_transient ⟨2, ACS_ERR_NUC_IN_PROGRESS⟩).1 (by decide)⟩,
    by decide, by decide,
    (nuc_in_progress_transient ⟨1, 1⟩).2 (by decide) (by decide)⟩

/-- The `while` condition of the render loop, `src/unnamed/part_000`
line 271: `ACS_DebugImageWindow_poll(window) && (freeRun ||
callbacksReceived < settings.frameCount)`. -/
def streamLoopCondition (poll freeRun : Bool)
    (callbacksReceived frameCount : Nat) : Bool :=
  poll && (freeRun || decide (callbacksReceived < frameCount))

/-- C8: the processing loop terminates exactly when, at its
once-per-iteration check, the window poll returns false or — in bounded
mode (`freeRun = false`, set when a frame count was configured) —
`callbacksReceived < frameCount` no longer holds; in free-run mode the
frame-count condition never terminates the loop (the condition reduces to
the poll alone). -/
theorem stream_loop_termination (poll freeRun : Bool)
    (callbacksReceived frameCount : Nat) :
    (streamLoopCondition poll freeRun callbacksReceived frameCount = false ↔
      poll = false ∨
        (freeRun = false ∧ ¬ callbacksReceived < frameCount)) ∧
    streamLoopCondition poll true callbacksReceived frameCount = poll := by
  constructor
  · cases poll <;> cases freeRun <;>
      by_cases h : callbacksReceived < frameCount <;>
      simp [streamLoopCondition, h]
  · cases poll <;> simp [streamLoopCondition]

/-- Witness for C8 at concrete inputs: in bounded mode with the target
reached the loop stops even though the window is still open; in free-run
mode it continues. -/
theorem stream_loop_termination_witness :
    (streamLoopCondition true false 5 5 = false ↔
      (true = false ∨ (false = false ∧ ¬ 5 < 5))) ∧
    streamLoopCondition true true 5 5 = true :=
  ⟨(stream_loop_termination true false 5 5).1,
    (stream_loop_termination true true 5 5).2⟩

/-- An event affecting the streaming session of `src/unnamed/part_000`
`main` (lines 263-321): a frame notification (`onImageReceived`), a
stream error delivered to `onError`, or the window poll turning false
(UI close). -/
inductive ACS_StreamEvent where
  | frame
  | streamError (err : ACS_Error)
  | windowClose
deriving DecidableEq, Repr

/-- How the streaming session of `main` ends. `finished` is the loop
exiting through its own condition (line 271) and then running lines
305-321: `countersReported` says whether the recorder counters
(`getFrameCounter`, `getLostFramesCounter`, lines 308-309) were printed,
which happens exactly when `thermalRecording` is on.
`fatalProcessExit` is `exit(EXIT_FAILURE)` reached inside
`onError → checkAcsError` (lines 402-410, 517-531) on the device
callback context, which skips lines 305-321 entirely.
`stillStreaming` means the delivered events did not end the session. -/
inductive SessionOutcome where
  | finished (countersReported : Bool) (framesReceived : Nat)
  | fatalProcessExit (framesReceived : Nat)
  | stillStreaming (framesReceived : Nat)
deriving DecidableEq, Repr

/-- Whether the outcome produced the recorder's final counters. -/
def SessionOutcome.reportsCounters : SessionOutcome → Bool
  | .finished b _ => b
  | .fatalProcessExit _ => false
  | .stillStreaming _ => false

/-- The streaming session of `main` against a serialized event sequence:
each frame increments `callbacksReceived` and the loop then re-checks its
condition (line 271, `freeRun || callbacksReceived < frameCount`); a
window close makes the next poll false and the loop exits normally; a
stream error runs `onError`, and if that reaches `exit` the process dies
inside the callback with no counter reporting. -/
def runStreamingSession (thermalRecording freeRun : Bool) (frameCount : Nat)
    (callbacksReceived : Nat) : List ACS_StreamEvent → SessionOutcome
  | [] => .stillStreaming callbacksReceived
  | .windowClose :: _ => .finished thermalRecording callbacksReceived
  | .streamError err :: rest =>
    if (onError err).exitsProcess then
      .fatalProcessExit callbacksReceived
    else
      runStreamingSession thermalRecording freeRun frameCount
        callbacksReceived rest
  | .frame :: rest =>
    let received := onImageReceived callbacksReceived
    if !freeRun && decide (frameCount ≤ received) then
      .finished thermalRecording received
    else
      runStreamingSession thermalRecording freeRun frameCount received rest

/-- Whether a stream event makes `onError` terminate the process (a
fatal streaming error). -/
def ACS_StreamEvent.isFatal : ACS_StreamEvent → Bool
  | .streamError err => (onError err).exitsProcess
  | _ => false

/-- C9 counterexample: with recording active, a fatal streaming error
(code 1, condition `ACS_ERR_CONNECTION_TIME_OUT = 1`) after one frame
terminates the session by `exit(EXIT_FAILURE)` inside the error
callback, and the recorder's final counters are never reported —
refuting "on every termination path the final counters are still
produced". -/
theorem fatal_error_skips_final_counters :
    runStreamingSession true true 0 0
        [ACS_StreamEvent.frame, ACS_StreamEvent.streamError ⟨1, 1⟩]
      = SessionOutcome.fatalProcessExit 1 ∧
    (runStreamingSession true true 0 0
        [ACS_StreamEvent.frame, ACS_StreamEvent.streamError ⟨1, 1⟩]).reportsCounters
      = false := by
  constructor <;> rfl

/-- C9 amended: when the session ends through the loop's own termination
conditions (window close or bounded frame count), the final status and
the recorder's counters are reported exactly when recording is active;
but a fatal streaming error exits the process from inside the error
callback, and on every fatal-error-free event sequence that abnormal
path never occurs. -/
theorem counters_reported_on_normal_termination (thermalRecording freeRun : Bool)
    (frameCount callbacksReceived : Nat) (events : List ACS_StreamEvent) :
    (∀ (b : Bool) (n : Nat),
      runStreamingSession thermalRecording freeRun frameCount
          callbacksReceived events = .finished b n →
      b = thermalRecording) ∧
    ((events.all fun e => !e.isFatal) = true →
      ∀ m : Nat,
        runStreamingSession thermalRecording freeRun frameCount
            callbacksReceived events ≠ .fatalProcessExit m) := by
  induction events generalizing callbacksReceived with
  | nil =>
    exact ⟨fun b n h => by simp [runStreamingSession] at h,
      fun _ m h => by simp [runStreamingSession] at h⟩
  | cons event rest ih =>
    cases event with
    | frame =>
      constructor
      · intro b n h
        simp only [runStreamingSession] at h
        by_cases hb : (!freeRun &&
            decide (frameCount ≤ onImageReceived callbacksReceived)) = true
        · rw [if_pos hb] at h
          cases h
          rfl
        · rw [if_neg hb] at h
          exact (ih (onImageReceived callbacksReceived)).1 b n h
      · intro hall m h
        simp only [List.all_cons, Bool.and_eq_true] at hall
        simp only [runStreamingSession] at h
        by_cases hb : (!freeRun &&
            decide (frameCount ≤ onImageReceived callbacksReceived)) = true
        · rw [if_pos hb] at h
          cases h
        · rw [if_neg hb] at h
          exact (ih (onImageReceived callbacksReceived)).2 hall.2 m h
    | streamError err =>
      constructor
      · intro b n h
        simp only [runStreamingSession] at h
        by_cases hb : (onError err).exitsProcess = true
        · rw [if_pos hb] at h
          cases h
        · rw [if_neg hb] at h
          exact (ih callbacksReceived).1 b n h
      · intro hall m h
        simp only [List.all_cons, Bool.and_eq_true] at hall
        have hfatal : (onError err).exitsProcess = false := by
          have := hall.1
          simp [ACS_StreamEvent.isFatal] at this
          exact this
        simp only [runStreamingSession] at h
        rw [if_neg (by simp [hfatal])] at h
        exact (ih callbacksReceived).2 hall.2 m h
    | windowClose =>
      constructor
      · intro b n h
        simp only [runStreamingSession] at h
        cases h
        rfl
      · intro _ m h
        simp only [runStreamingSession] at h
        cases h

/-- Witness for the amended C9 at a concrete input: one frame, a
transient calibration error, then window close — no fatal exit, and the
counters are reported since recording is active. -/
theorem counters_reported_on_normal_termination_witness :
    (([ACS_StreamEvent.frame,
        ACS_StreamEvent.streamError ⟨3, ACS_ERR_NUC_IN_PROGRESS⟩,
        ACS_StreamEvent.windowClose].all fun e => !e.isFatal) = true) ∧
    (∀ m : Nat,
      runStreamingSession true true 0 0
          [ACS_StreamEvent.frame,
            ACS_StreamEvent.streamError ⟨3, ACS_ERR_NUC_IN_PROGRESS⟩,
            ACS_StreamEvent.windowClose] ≠ .fatalProcessExit m) ∧
    (∀ (b : Bool) (n : Nat),
      runStreamingSession true true 0 0
          [ACS_StreamEvent.frame,
            ACS_StreamEvent.streamError ⟨3, ACS_ERR_NUC_IN_PROGRESS⟩,
            ACS_StreamEvent.windowClose] = .finished b n →
      b = true) :=
  ⟨by decide,
    (counters_reported_on_normal_termination true true 0 0
      [.frame, .streamError ⟨3, ACS_ERR_NUC_IN_PROGRESS⟩, .windowClose]).2
      (by decide),
    (counters_reported_on_normal_termination true true 0 0
      [.frame, .streamError ⟨3, ACS_ERR_NUC_IN_PROGRESS⟩, .windowClose]).1⟩
